import Mathlib

/-!
Verification of the homework-status polling bot (`homework.py`) against its
specification.  The Python program is shallowly embedded: JSON values become
an inductive type, dynamically-typed operations (`in`, subscript, `.get`)
become explicit `Except`-valued functions, Python exceptions become values of
`PyError`, and the external world (HTTP responses, the Telegram transport) is
passed in as explicit oracle data.  Side effects relevant to the claims
(API requests, `send_message` invocations, error logging, the inter-cycle
sleep) are recorded in an explicit event trace.
-/

namespace HomeworkBot

/-- Decoded JSON values, as returned by `response.json()`. -/
inductive JsonValue where
  | null : JsonValue
  | bool (b : Bool) : JsonValue
  | num (n : Int) : JsonValue
  | str (s : String) : JsonValue
  | arr (xs : List JsonValue) : JsonValue
  | obj (kvs : List (String × JsonValue)) : JsonValue

/-- Python exception values that the program can raise.  Every constructor
corresponds to an exception class that inherits from `Exception`, so all of
them are caught by the `except Exception` clause in `main`. -/
inductive PyError where
  | typeError (msg : String)
  | keyError (msg : String)
  | valueError (msg : String)
  | attributeError (msg : String)
  | jsonDecodeError (msg : String)
  | connectionError (msg : String)
  | invalidResponseCode (code : Int) (reason : String) (text : String)
  | genericException (msg : String)
deriving DecidableEq, Repr

mutual

/-- Python `repr()` restricted to JSON values (string escaping inside `repr`
of strings is not reproduced; no claim exercises it). -/
def pyRepr : JsonValue → String
  | .null => "None"
  | .bool true => "True"
  | .bool false => "False"
  | .num n => toString n
  | .str s => "\x27" ++ s ++ "\x27"
  | .arr xs => "[" ++ String.intercalate ", " (pyReprList xs) ++ "]"
  | .obj kvs => "\x7b" ++ String.intercalate ", " (pyReprKVs kvs) ++ "\x7d"

/-- `repr` of the elements of a JSON array. -/
def pyReprList : List JsonValue → List String
  | [] => []
  | x :: xs => pyRepr x :: pyReprList xs

/-- `repr` of the key/value pairs of a JSON object. -/
def pyReprKVs : List (String × JsonValue) → List String
  | [] => []
  | (k, v) :: kvs => ("\x27" ++ k ++ "\x27: " ++ pyRepr v) :: pyReprKVs kvs

end

/-- Python `str()` on JSON values (used by f-string interpolation). -/
def pyStr : JsonValue → String
  | .str s => s
  | v => pyRepr v

/-- Is `needle` a contiguous sub-list of the second list (Python substring
test for `in` on strings)? -/
def subListChar (needle : List Char) : List Char → Bool
  | [] => needle.isEmpty
  | c :: rest => needle.isPrefixOf (c :: rest) || subListChar needle rest

/-- Python `k in v` for a string key `k` against a JSON value: key membership
for dicts, element membership for lists, substring test for strings,
`TypeError` otherwise. -/
def pyIn (k : String) : JsonValue → Except PyError Bool
  | .obj kvs => .ok (kvs.any (fun p => p.1 == k))
  | .arr xs => .ok (xs.any (fun v => match v with | .str s => s == k | _ => false))
  | .str s => .ok (subListChar k.toList s.toList)
  | _ => .error (.typeError "argument of type is not iterable")

/-- Python subscript `v[k]` for a string key. -/
def pyGetItem (v : JsonValue) (k : String) : Except PyError JsonValue :=
  match v with
  | .obj kvs =>
      match kvs.lookup k with
      | some x => .ok x
      | none => .error (.keyError k)
  | .arr _ => .error (.typeError "list indices must be integers or slices, not str")
  | .str _ => .error (.typeError "string indices must be integers")
  | _ => .error (.typeError "object is not subscriptable")

/-- Python `v in d` for a JSON value against a dict with string keys:
only equal string keys are members; unhashable values raise `TypeError`. -/
def pyInStrDict (v : JsonValue) (d : List (String × String)) : Except PyError Bool :=
  match v with
  | .str s => .ok (d.any (fun p => p.1 == s))
  | .arr _ => .error (.typeError "unhashable type: list")
  | .obj _ => .error (.typeError "unhashable type: dict")
  | _ => .ok false

/-- `RETRY_PERIOD = 600` (seconds slept between cycles). -/
def RETRY_PERIOD : Nat := 600

/-- `ENDPOINT` constant of the module. -/
def ENDPOINT : String := "https://practicum.yandex.ru/api/user_api/homework_statuses/"

/-- `HOMEWORK_VERDICTS`: the status lexicon of the module. -/
def HOMEWORK_VERDICTS : List (String × String) :=
  [("approved", "Работа проверена: ревьюеру всё понравилось. Ура!"),
   ("reviewing", "Работа взята на проверку ревьюером."),
   ("rejected", "Работа проверена: у ревьюера есть замечания.")]

/-- `check_response(response)`: top level must be a dict, must contain key
`homeworks`, and its value must be a list; the list is returned unchanged. -/
def check_response (response : JsonValue) : Except PyError (List JsonValue) :=
  match response with
  | .obj kvs =>
      match kvs.lookup "homeworks" with
      | none => .error (.keyError "Отсутствует ключ \"homeworks\" в ответе API")
      | some homeworks =>
          match homeworks with
          | .arr l => .ok l
          | _ => .error (.typeError "Домашние работы в ответе API не являются списком")
  | _ => .error (.typeError "Ответ API не является словарем")

/-- `parse_status(homework)`: requires keys `homework_name` and `status`
(checked with Python `in`, left-to-right with short-circuit `or`), requires
the status to be a key of `HOMEWORK_VERDICTS`, and renders the fixed
Russian template. -/
def parse_status (homework : JsonValue) : Except PyError String :=
  match pyIn "homework_name" homework with
  | .error e => .error e
  | .ok hnIn =>
    match (if hnIn then
             match pyIn "status" homework with
             | .error e => .error e
             | .ok stIn => .ok (!stIn)
           else .ok true : Except PyError Bool) with
    | .error e => .error e
    | .ok true =>
        .error (.keyError "Отсутствуют ожидаемые ключи в информации о домашней работе")
    | .ok false =>
        match pyGetItem homework "homework_name" with
        | .error e => .error e
        | .ok homework_name =>
          match pyGetItem homework "status" with
          | .error e => .error e
          | .ok homework_status =>
            match pyInStrDict homework_status HOMEWORK_VERDICTS with
            | .error e => .error e
            | .ok false =>
                .error (.valueError
                  ("Неожиданный статус домашней работы: " ++ pyStr homework_status))
            | .ok true =>
                match homework_status with
                | .str s =>
                    match HOMEWORK_VERDICTS.lookup s with
                    | some verdict =>
                        .ok ("Изменился статус проверки работы \"" ++ pyStr homework_name
                             ++ "\". " ++ verdict)
                    | none => .error (.keyError s)
                | _ => .error (.typeError "unhashable type")

/-- Observable side effects of one part of a cycle: an HTTP GET to the API
(with the `from_date` value used), an invocation of `send_message`, an
`logger.error` call from `handle_error`, and the `time.sleep` of the
`finally` clause. -/
inductive Event where
  | apiRequest (from_date : JsonValue)
  | sendCall (text : String)
  | logError (msg : String)
  | sleep (seconds : Nat)

/-- Outcome of one `bot.send_message` call of the Telegram transport: the
message is accepted, or the transport raises `telebot.apihelper.ApiException`
(the failure mode `send_message` handles). -/
inductive TransportResult where
  | accepted
  | apiException (description : String)

/-- The parts of a `requests.Response` that `get_api_answer` inspects:
status code, reason, body text, and the result of `response.json()`. -/
structure HttpResponse where
  status_code : Int
  reason : String
  text : String
  jsonBody : Except String JsonValue

/-- Outcome of one `requests.get` call: either the call raises a
`RequestException`, or a response object is returned. -/
inductive HttpResult where
  | raised (msg : String)
  | resp (r : HttpResponse)

/-- The value returned (or exception raised) by `get_api_answer`, given the
oracle outcome `h` of the underlying `requests.get` call.  A
`RequestException` is re-raised as `ConnectionError`; a status other than
200 raises `InvalidResponseCode`; otherwise `response.json()` is returned
(raising a decode error if the body is not valid JSON). -/
def get_api_answer_result (h : HttpResult) : Except PyError JsonValue :=
  match h with
  | .raised msg =>
      .error (.connectionError ("Сбой при запросе к API. Ошибка: " ++ msg))
  | .resp r =>
      if r.status_code != 200 then
        .error (.invalidResponseCode r.status_code r.reason r.text)
      else
        match r.jsonBody with
        | .ok v => .ok v
        | .error m => .error (.jsonDecodeError m)

/-- `get_api_answer(current_timestamp)`: one GET against the API; the second
component records the request that was made (with its `from_date`). -/
def get_api_answer (h : HttpResult) (current_timestamp : JsonValue) :
    (Except PyError JsonValue) × List Event :=
  (get_api_answer_result h, [Event.apiRequest current_timestamp])

/-- `send_message(bot, message)`: returns `True` when the transport accepts,
`False` when the transport raises `ApiException`; never raises. -/
def send_message (r : TransportResult) : Bool :=
  match r with
  | .accepted => true
  | .apiException _ => false

/-- Python `response.get(key, default)`: attribute `.get` exists only on
dicts; on any other JSON value an `AttributeError` is raised. -/
def pyDictGet (v : JsonValue) (k : String) (default : JsonValue) :
    Except PyError JsonValue :=
  match v with
  | .obj kvs => .ok ((kvs.lookup k).getD default)
  | _ => .error (.attributeError "object has no attribute get")

/-- `process_homeworks(bot, current_timestamp, previous_message)`: fetch,
validate, format the first homework, and send when the formatted text
differs from `previous_message` — returning the (possibly updated)
`previous_message` together with the trace of this call's side effects.
`transport` gives the oracle outcome of a `bot.send_message` call per text. -/
def process_homeworks (h : HttpResult) (transport : String → TransportResult)
    (current_timestamp : JsonValue) (previous_message : String) :
    (Except PyError String) × List Event :=
  let ev1 := [Event.apiRequest current_timestamp]
  match get_api_answer_result h with
  | .error e => (.error e, ev1)
  | .ok response =>
    match check_response response with
    | .error e => (.error e, ev1)
    | .ok [] => (.ok previous_message, ev1)
    | .ok (homework :: _) =>
      match parse_status homework with
      | .error e => (.error e, ev1)
      | .ok current_message =>
        if current_message != previous_message then
          if send_message (transport current_message) then
            (.ok current_message, ev1 ++ [Event.sendCall current_message])
          else
            (.ok previous_message, ev1 ++ [Event.sendCall current_message])
        else
          (.ok previous_message, ev1)

/-- `update_timestamp(current_timestamp)`: performs its own second API
request and returns `response.get('current_date', current_timestamp)`. -/
def update_timestamp (h : HttpResult) (current_timestamp : JsonValue) :
    (Except PyError JsonValue) × List Event :=
  let ev := [Event.apiRequest current_timestamp]
  match get_api_answer_result h with
  | .error e => (.error e, ev)
  | .ok response =>
    match pyDictGet response "current_date" current_timestamp with
    | .error e => (.error e, ev)
    | .ok v => (.ok v, ev)

/-- `handle_error(bot, error_message, previous_message)`: logs the error and
sends it as a chat message when it differs from `previous_message`,
returning the (possibly updated) `previous_message`. -/
def handle_error (transport : String → TransportResult)
    (error_message : String) (previous_message : String) :
    String × List Event :=
  if error_message != previous_message then
    if send_message (transport error_message) then
      (error_message, [Event.logError error_message, Event.sendCall error_message])
    else
      (previous_message, [Event.logError error_message, Event.sendCall error_message])
  else
    (previous_message, [Event.logError error_message])

/-- Python `str()` of the exceptions the program raises (`str` of a
`KeyError` is the `repr` of its argument, hence the quotes). -/
def pyStrOfError : PyError → String
  | .typeError m => m
  | .keyError m => "\x27" ++ m ++ "\x27"
  | .valueError m => m
  | .attributeError m => m
  | .jsonDecodeError m => m
  | .connectionError m => m
  | .genericException m => m
  | .invalidResponseCode c r t =>
      "Неверный код ответа API: " ++ toString c ++ ", причина: " ++ r
        ++ ", текст: " ++ t

/-- The message passed to `handle_error` by the `except` chain of `main`:
`InvalidResponseCode` and `ConnectionError` have dedicated clauses, every
other `Exception` falls to the generic clause. -/
def classifyError (e : PyError) : String :=
  match e with
  | .invalidResponseCode _ _ _ => "Ошибка API: " ++ pyStrOfError e
  | .connectionError _ => "Сбой подключения: " ++ pyStrOfError e
  | _ => "Сбой в работе программы: " ++ pyStrOfError e

/-- The three environment variables read at module load
(`os.getenv` returns `None` when unset). -/
structure EnvVars where
  practicum_token : Option String
  telegram_token : Option String
  telegram_chat_id : Option String

/-- Python truthiness test `not value` on an `os.getenv` result:
`None` and the empty string are falsy. -/
def envFalsy : Option String → Bool
  | none => true
  | some s => s == ""

/-- `check_tokens()`: collects the names of missing (falsy) environment
variables and raises a plain `Exception` when any is missing. -/
def check_tokens (e : EnvVars) : Except PyError Bool :=
  let tokens := [("PRACTICUM_TOKEN", e.practicum_token),
                 ("TELEGRAM_TOKEN", e.telegram_token),
                 ("TELEGRAM_CHAT_ID", e.telegram_chat_id)]
  let missing_tokens := (tokens.filter (fun p => envFalsy p.2)).map (fun p => p.1)
  if missing_tokens.isEmpty then
    .ok true
  else
    .error (.genericException
      ("Отсутствуют обязательные переменные окружения: "
        ++ String.intercalate ", " missing_tokens))

/-- The mutable local state of `main`: `current_timestamp` and
`previous_message`. -/
structure MainState where
  current_timestamp : JsonValue
  previous_message : String

/-- The external world of one cycle of the `while True` loop: the outcomes
of the (up to) two `requests.get` calls, and the transport outcome for any
`bot.send_message` call, keyed by message text. -/
structure CycleEnv where
  fetch1 : HttpResult
  fetch2 : HttpResult
  transport : String → TransportResult

/-- One iteration of the `while True` loop of `main`: the `try` block runs
`process_homeworks` (whose return value is discarded) and then reassigns
`current_timestamp` from `update_timestamp`; each `except` clause calls
`handle_error` (whose return value is also discarded); the `finally` clause
sleeps.  `previous_message` is never reassigned by the loop. -/
def mainStep (env : CycleEnv) (s : MainState) : MainState × List Event :=
  match process_homeworks env.fetch1 env.transport s.current_timestamp s.previous_message with
  | (.error e, ev1) =>
      (s, ev1 ++ (handle_error env.transport (classifyError e) s.previous_message).2
            ++ [Event.sleep RETRY_PERIOD])
  | (.ok _, ev1) =>
      match update_timestamp env.fetch2 s.current_timestamp with
      | (.error e, ev2) =>
          (s, ev1 ++ ev2
                ++ (handle_error env.transport (classifyError e) s.previous_message).2
                ++ [Event.sleep RETRY_PERIOD])
      | (.ok newTs, ev2) =>
          (⟨newTs, s.previous_message⟩, ev1 ++ ev2 ++ [Event.sleep RETRY_PERIOD])

/-- A finite prefix of the infinite loop: run one cycle per environment. -/
def runCycles (envs : List CycleEnv) (s : MainState) : MainState × List Event :=
  match envs with
  | [] => (s, [])
  | env :: rest =>
      let (s1, tr1) := mainStep env s
      let (s2, tr2) := runCycles rest s1
      (s2, tr1 ++ tr2)

/-- `main()`: check credentials (fatal on failure, before any cycle runs),
then start the loop with `current_timestamp = int(time.time())` and
`previous_message = ""`.  Observed over a finite prefix of cycles. -/
def main (e : EnvVars) (t0 : Int) (envs : List CycleEnv) :
    Except PyError (MainState × List Event) :=
  match check_tokens e with
  | .error err => .error err
  | .ok _ => .ok (runCycles envs ⟨.num t0, ""⟩)

/-- Trace observation: is the event an API request? -/
def isApiRequest : Event → Bool
  | .apiRequest _ => true
  | _ => false

/-- Trace observation: is the event a `send_message` invocation? -/
def isSendCall : Event → Bool
  | .sendCall _ => true
  | _ => false

/-- Trace observation: is the event a sleep? -/
def isSleep : Event → Bool
  | .sleep _ => true
  | _ => false

/-- A status value that is one of the three keys of `HOMEWORK_VERDICTS`. -/
def statusKnown (v : JsonValue) : Prop :=
  v = .str "approved" ∨ v = .str "reviewing" ∨ v = .str "rejected"

/-- A 200 response body with one approved homework and the given
`current_date`. -/
def scenarioBody (d : Int) : JsonValue :=
  .obj [("homeworks",
          .arr [.obj [("homework_name", .str "hw1"), ("status", .str "approved")]]),
        ("current_date", .num d)]

/-- A cycle environment in which both fetches return 200 with the approved
homework (the second fetch reports a later `current_date`) and the
transport accepts every message. -/
def scenarioEnv : CycleEnv :=
  ⟨.resp ⟨200, "OK", "", .ok (scenarioBody 1000)⟩,
   .resp ⟨200, "OK", "", .ok (scenarioBody 2000)⟩,
   fun _ => .accepted⟩

/-- The notification text formatted in the scenario environment. -/
def scenarioMsg : String :=
  "Изменился статус проверки работы \"hw1\". Работа проверена: ревьюеру всё понравилось. Ура!"

/-- The loop state at startup: start time 0, empty previous message. -/
def scenarioS0 : MainState := ⟨.num 0, ""⟩

/-- A 503 response, as in Scenario D of the spec. -/
def resp503 : HttpResponse := ⟨503, "Service Unavailable", "error", .error "no json"⟩

theorem any_key_eq_lookup_isSome {α : Type} (k : String) (kvs : List (String × α)) :
    kvs.any (fun p => p.1 == k) = (kvs.lookup k).isSome := by
  induction kvs with
  | nil => rfl
  | cons p t ih =>
      obtain ⟨a, b⟩ := p
      by_cases h : a = k
      · subst h
        simp [List.lookup]
      · have hb : (a == k) = false := by simp [h]
        have hb2 : (k == a) = false := by
          simp
          exact fun hh => h hh.symm
        simp [List.lookup, hb, hb2, ih]

theorem parse_status_missing_name (kvs : List (String × JsonValue))
    (hn : kvs.lookup "homework_name" = none) :
    parse_status (.obj kvs)
      = .error (.keyError "Отсутствуют ожидаемые ключи в информации о домашней работе") := by
  simp [parse_status, pyIn, any_key_eq_lookup_isSome, hn]

theorem parse_status_missing_status (kvs : List (String × JsonValue))
    (hst : kvs.lookup "status" = none) :
    parse_status (.obj kvs)
      = .error (.keyError "Отсутствуют ожидаемые ключи в информации о домашней работе") := by
  cases hhn : kvs.lookup "homework_name" with
  | none => exact parse_status_missing_name kvs hhn
  | some n => simp [parse_status, pyIn, any_key_eq_lookup_isSome, hhn, hst]

theorem parse_status_unknown_status (kvs : List (String × JsonValue)) (v : JsonValue)
    (hst : kvs.lookup "status" = some v) (hun : ¬ statusKnown v) :
    ∃ e, parse_status (.obj kvs) = .error e := by
  cases hhn : kvs.lookup "homework_name" with
  | none => exact ⟨_, parse_status_missing_name kvs hhn⟩
  | some n =>
      cases v with
      | str s =>
          have hs1 : ("approved" == s) = false := by
            simp
            rintro rfl
            exact hun (Or.inl rfl)
          have hs2 : ("reviewing" == s) = false := by
            simp
            rintro rfl
            exact hun (Or.inr (Or.inl rfl))
          have hs3 : ("rejected" == s) = false := by
            simp
            rintro rfl
            exact hun (Or.inr (Or.inr rfl))
          refine ⟨.valueError ("Неожиданный статус домашней работы: "
            ++ pyStr (.str s)), ?_⟩
          simp [parse_status, pyIn, pyGetItem, pyInStrDict, any_key_eq_lookup_isSome,
            hhn, hst, HOMEWORK_VERDICTS, hs1, hs2, hs3]
      | null =>
          refine ⟨.valueError ("Неожиданный статус домашней работы: " ++ pyStr .null), ?_⟩
          simp [parse_status, pyIn, pyGetItem, pyInStrDict, any_key_eq_lookup_isSome, hhn, hst]
      | bool b =>
          refine ⟨.valueError ("Неожиданный статус домашней работы: " ++ pyStr (.bool b)), ?_⟩
          simp [parse_status, pyIn, pyGetItem, pyInStrDict, any_key_eq_lookup_isSome, hhn, hst]
      | num m =>
          refine ⟨.valueError ("Неожиданный статус домашней работы: " ++ pyStr (.num m)), ?_⟩
          simp [parse_status, pyIn, pyGetItem, pyInStrDict, any_key_eq_lookup_isSome, hhn, hst]
      | arr xs =>
          refine ⟨.typeError "unhashable type: list", ?_⟩
          simp [parse_status, pyIn, pyGetItem, pyInStrDict, any_key_eq_lookup_isSome, hhn, hst]
      | obj kvs2 =>
          refine ⟨.typeError "unhashable type: dict", ?_⟩
          simp [parse_status, pyIn, pyGetItem, pyInStrDict, any_key_eq_lookup_isSome, hhn, hst]

theorem parse_status_ok (kvs : List (String × JsonValue)) (nameVal : JsonValue)
    (s verdict : String)
    (hn : kvs.lookup "homework_name" = some nameVal)
    (hst : kvs.lookup "status" = some (.str s))
    (hv : HOMEWORK_VERDICTS.lookup s = some verdict) :
    parse_status (.obj kvs)
      = .ok ("Изменился статус проверки работы \"" ++ pyStr nameVal ++ "\". " ++ verdict) := by
  have hany : HOMEWORK_VERDICTS.any (fun p => p.1 == s) = true := by
    rw [any_key_eq_lookup_isSome, hv]
    rfl
  simp [parse_status, pyIn, pyGetItem, pyInStrDict, any_key_eq_lookup_isSome,
    hn, hst, hv, hany]

/-- C4: `check_response` fails with `TypeError` on any non-dict value, fails
with `KeyError` on a dict without the key `homeworks`, fails with
`TypeError` when the value under `homeworks` is not a list, and otherwise
returns the `homeworks` list unchanged; the empty list is accepted. -/
theorem check_response_contract :
    (∀ v : JsonValue, (∀ kvs, v ≠ .obj kvs) →
        check_response v = .error (.typeError "Ответ API не является словарем"))
  ∧ (∀ kvs : List (String × JsonValue), kvs.lookup "homeworks" = none →
        check_response (.obj kvs)
          = .error (.keyError "Отсутствует ключ \"homeworks\" в ответе API"))
  ∧ (∀ (kvs : List (String × JsonValue)) (hw : JsonValue),
        kvs.lookup "homeworks" = some hw → (∀ l, hw ≠ .arr l) →
        check_response (.obj kvs)
          = .error (.typeError "Домашние работы в ответе API не являются списком"))
  ∧ (∀ (kvs : List (String × JsonValue)) (l : List JsonValue),
        kvs.lookup "homeworks" = some (.arr l) → check_response (.obj kvs) = .ok l)
  ∧ check_response (.obj [("homeworks", .arr [])]) = .ok [] := by
  refine ⟨?_, ?_, ?_, ?_, rfl⟩
  · intro v h
    cases v with
    | obj kvs => exact absurd rfl (h kvs)
    | null => rfl
    | bool b => rfl
    | num n => rfl
    | str s => rfl
    | arr xs => rfl
  · intro kvs h
    simp [check_response, h]
  · intro kvs hw h h2
    cases hw with
    | arr l => exact absurd rfl (h2 l)
    | null => simp [check_response, h]
    | bool b => simp [check_response, h]
    | num n => simp [check_response, h]
    | str s => simp [check_response, h]
    | obj kvs2 => simp [check_response, h]
  · intro kvs l h
    simp [check_response, h]

/-- C4 witness: the contract evaluated on concrete inputs for every branch. -/
theorem check_response_contract_witness :
    check_response (.num 5) = .error (.typeError "Ответ API не является словарем")
  ∧ check_response (.obj [("a", .null)])
      = .error (.keyError "Отсутствует ключ \"homeworks\" в ответе API")
  ∧ check_response (.obj [("homeworks", .null)])
      = .error (.typeError "Домашние работы в ответе API не являются списком")
  ∧ check_response (.obj [("homeworks", .arr [.num 1])]) = .ok [.num 1]
  ∧ check_response (.obj [("homeworks", .arr [])]) = .ok [] :=
  ⟨check_response_contract.1 (.num 5) (fun _ h => JsonValue.noConfusion h),
   check_response_contract.2.1 [("a", .null)] rfl,
   check_response_contract.2.2.1 [("homeworks", .null)] .null rfl
     (fun _ h => JsonValue.noConfusion h),
   check_response_contract.2.2.2.1 [("homeworks", .arr [.num 1])] [.num 1] rfl,
   check_response_contract.2.2.2.2⟩

/-- C5: `parse_status` on a homework record (a dict) fails exactly when the
record is missing `homework_name` or `status`, or when the `status` value is
not one of the three lexicon keys; on any record with both keys present and
a known status it succeeds. -/
theorem parse_status_rejection_contract :
    (∀ kvs : List (String × JsonValue), kvs.lookup "homework_name" = none →
        parse_status (.obj kvs)
          = .error (.keyError "Отсутствуют ожидаемые ключи в информации о домашней работе"))
  ∧ (∀ kvs : List (String × JsonValue), kvs.lookup "status" = none →
        parse_status (.obj kvs)
          = .error (.keyError "Отсутствуют ожидаемые ключи в информации о домашней работе"))
  ∧ (∀ (kvs : List (String × JsonValue)) (v : JsonValue),
        kvs.lookup "status" = some v → ¬ statusKnown v →
        ∃ e, parse_status (.obj kvs) = .error e)
  ∧ (∀ (kvs : List (String × JsonValue)) (n v : JsonValue),
        kvs.lookup "homework_name" = some n → kvs.lookup "status" = some v →
        statusKnown v → ∃ s, parse_status (.obj kvs) = .ok s) := by
  refine ⟨parse_status_missing_name, parse_status_missing_status,
    parse_status_unknown_status, ?_⟩
  intro kvs n v hn hst hknown
  rcases hknown with h | h | h
  · subst h
    exact ⟨_, parse_status_ok kvs n "approved"
      "Работа проверена: ревьюеру всё понравилось. Ура!" hn hst rfl⟩
  · subst h
    exact ⟨_, parse_status_ok kvs n "reviewing"
      "Работа взята на проверку ревьюером." hn hst rfl⟩
  · subst h
    exact ⟨_, parse_status_ok kvs n "rejected"
      "Работа проверена: у ревьюера есть замечания." hn hst rfl⟩

/-- C5 witness: the rejection contract evaluated on concrete records. -/
theorem parse_status_rejection_contract_witness :
    parse_status (.obj [("status", .str "approved")])
      = .error (.keyError "Отсутствуют ожидаемые ключи в информации о домашней работе")
  ∧ parse_status (.obj [("homework_name", .str "hw")])
      = .error (.keyError "Отсутствуют ожидаемые ключи в информации о домашней работе")
  ∧ (∃ e, parse_status
        (.obj [("homework_name", .str "hw"), ("status", .str "unknown_status")])
          = .error e)
  ∧ (∃ s, parse_status
        (.obj [("homework_name", .str "hw"), ("status", .str "reviewing")]) = .ok s) :=
  ⟨parse_status_rejection_contract.1 [("status", .str "approved")] rfl,
   parse_status_rejection_contract.2.1 [("homework_name", .str "hw")] rfl,
   parse_status_rejection_contract.2.2.1
     [("homework_name", .str "hw"), ("status", .str "unknown_status")]
     (.str "unknown_status") rfl (by simp [statusKnown]),
   parse_status_rejection_contract.2.2.2
     [("homework_name", .str "hw"), ("status", .str "reviewing")]
     (.str "hw") (.str "reviewing") rfl rfl (Or.inr (Or.inl rfl))⟩

/-- C6 counterexample: on the record of the claim, `parse_status` does not
return the English template string claimed by the spec (the code renders a
Russian template). -/
theorem parse_status_not_english_template :
    parse_status (.obj [("homework_name", .str "hw1"), ("status", .str "approved")])
      ≠ .ok "Changed review status for \"hw1\". Work checked: the reviewer liked everything. Hooray!" := by
  intro h
  have heval : parse_status (.obj [("homework_name", .str "hw1"), ("status", .str "approved")])
      = .ok "Изменился статус проверки работы \"hw1\". Работа проверена: ревьюеру всё понравилось. Ура!" := rfl
  rw [heval] at h
  injection h with h2
  exact absurd h2 (by decide)

/-- C6 amended: for every record containing `homework_name` and a status
that is a lexicon key, `parse_status` returns exactly the fixed-template
string `Изменился статус проверки работы "{name}". {verdict}` where the
verdict is the lexicon text for that status; in particular for
`{"homework_name": "hw1", "status": "approved"}` it returns
`Изменился статус проверки работы "hw1". Работа проверена: ревьюеру всё
понравилось. Ура!`. -/
theorem parse_status_russian_template :
    (∀ (kvs : List (String × JsonValue)) (nameVal : JsonValue) (s verdict : String),
        kvs.lookup "homework_name" = some nameVal →
        kvs.lookup "status" = some (.str s) →
        HOMEWORK_VERDICTS.lookup s = some verdict →
        parse_status (.obj kvs)
          = .ok ("Изменился статус проверки работы \"" ++ pyStr nameVal ++ "\". " ++ verdict))
  ∧ parse_status (.obj [("homework_name", .str "hw1"), ("status", .str "approved")])
      = .ok "Изменился статус проверки работы \"hw1\". Работа проверена: ревьюеру всё понравилось. Ура!" :=
  ⟨parse_status_ok, rfl⟩

/-- C6 witness: the amended template law evaluated on a concrete record. -/
theorem parse_status_russian_template_witness :
    parse_status (.obj [("homework_name", .str "hw2"), ("status", .str "rejected")])
      = .ok "Изменился статус проверки работы \"hw2\". Работа проверена: у ревьюера есть замечания." :=
  parse_status_russian_template.1
    [("homework_name", .str "hw2"), ("status", .str "rejected")]
    (.str "hw2") "rejected" "Работа проверена: у ревьюера есть замечания." rfl rfl rfl

/-- C7: `send_message` returns `true` when the transport accepts the message
and `false` when the transport fails with `ApiException`; being a total
function into `Bool`, it never propagates an exception to its caller. -/
theorem send_message_boundary :
    send_message .accepted = true
  ∧ ∀ d : String, send_message (.apiException d) = false :=
  ⟨rfl, fun _ => rfl⟩

theorem update_timestamp_trace (h : HttpResult) (ts : JsonValue) :
    (update_timestamp h ts).2 = [Event.apiRequest ts] := by
  unfold update_timestamp
  split <;> try rfl
  split <;> rfl

theorem handle_error_trace (tr : String → TransportResult) (m prev : String) :
    (handle_error tr m prev).2 = [Event.logError m, Event.sendCall m]
  ∨ (handle_error tr m prev).2 = [Event.logError m] := by
  unfold handle_error
  split
  · split
    · exact Or.inl rfl
    · exact Or.inl rfl
  · exact Or.inr rfl

theorem process_homeworks_trace (h : HttpResult) (tr : String → TransportResult)
    (ts : JsonValue) (prev : String) :
    (process_homeworks h tr ts prev).2 = [Event.apiRequest ts]
  ∨ ∃ m, (process_homeworks h tr ts prev).2 = [Event.apiRequest ts, Event.sendCall m] := by
  unfold process_homeworks
  split
  · exact Or.inl rfl
  · split
    · exact Or.inl rfl
    · exact Or.inl rfl
    · split
      · exact Or.inl rfl
      · split
        · split
          · exact Or.inr ⟨_, rfl⟩
          · exact Or.inr ⟨_, rfl⟩
        · exact Or.inl rfl

theorem mainStep_prev (env : CycleEnv) (s : MainState) :
    (mainStep env s).1.previous_message = s.previous_message := by
  unfold mainStep
  split
  · rfl
  · split
    · rfl
    · rfl

theorem getLast_append_singleton {α : Type} (l : List α) (a : α) :
    (l ++ [a]).getLast? = some a := by
  induction l with
  | nil => rfl
  | cons x xs ih =>
      rw [List.cons_append, List.getLast?_cons, ih]
      simp

theorem mainStep_trace_getLast (env : CycleEnv) (s : MainState) :
    ((mainStep env s).2).getLast? = some (Event.sleep RETRY_PERIOD) := by
  unfold mainStep
  split
  · exact getLast_append_singleton _ _
  · split
    · exact getLast_append_singleton _ _
    · exact getLast_append_singleton _ _

theorem countP_sleep_process (h : HttpResult) (tr : String → TransportResult)
    (ts : JsonValue) (prev : String) :
    ((process_homeworks h tr ts prev).2.countP isSleep) = 0 := by
  rcases process_homeworks_trace h tr ts prev with hh | ⟨m, hh⟩ <;> rw [hh] <;> rfl

theorem countP_sleep_handle (tr : String → TransportResult) (m prev : String) :
    ((handle_error tr m prev).2.countP isSleep) = 0 := by
  rcases handle_error_trace tr m prev with hh | hh <;> rw [hh] <;> rfl

theorem mainStep_countP_sleep (env : CycleEnv) (s : MainState) :
    ((mainStep env s).2.countP isSleep) = 1 := by
  rcases hp : process_homeworks env.fetch1 env.transport s.current_timestamp s.previous_message
    with ⟨r1, ev1⟩
  have hev1 : ev1.countP isSleep = 0 := by
    have h0 := countP_sleep_process env.fetch1 env.transport s.current_timestamp s.previous_message
    rw [hp] at h0
    exact h0
  cases r1 with
  | error e =>
      simp [mainStep, hp, List.countP_append, hev1, countP_sleep_handle, isSleep]
  | ok p =>
      rcases hu : update_timestamp env.fetch2 s.current_timestamp with ⟨r2, ev2⟩
      have hev2 : ev2.countP isSleep = 0 := by
        have h0 := update_timestamp_trace env.fetch2 s.current_timestamp
        rw [hu] at h0
        dsimp only at h0
        rw [h0]
        rfl
      cases r2 with
      | error e =>
          simp [mainStep, hp, hu, List.countP_append, hev1, hev2, countP_sleep_handle, isSleep]
      | ok v =>
          simp [mainStep, hp, hu, List.countP_append, hev1, hev2, isSleep]

theorem runCycles_countP_sleep (envs : List CycleEnv) (s : MainState) :
    ((runCycles envs s).2.countP isSleep) = envs.length := by
  induction envs generalizing s with
  | nil => rfl
  | cons env rest ih =>
      rcases hm : mainStep env s with ⟨s1, tr1⟩
      have h1 : tr1.countP isSleep = 1 := by
        have h0 := mainStep_countP_sleep env s
        rw [hm] at h0
        exact h0
      rcases hr : runCycles rest s1 with ⟨s2, tr2⟩
      have h2 : tr2.countP isSleep = rest.length := by
        have h0 := ih s1
        rw [hr] at h0
        exact h0
      simp [runCycles, hm, hr, List.countP_append, h1, h2, List.length_cons]
      omega

theorem runCycles_prev (envs : List CycleEnv) (s : MainState) :
    (runCycles envs s).1.previous_message = s.previous_message := by
  induction envs generalizing s with
  | nil => rfl
  | cons env rest ih =>
      rcases hm : mainStep env s with ⟨s1, tr1⟩
      have h1 : s1.previous_message = s.previous_message := by
        have h0 := mainStep_prev env s
        rw [hm] at h0
        exact h0
      rcases hr : runCycles rest s1 with ⟨s2, tr2⟩
      have h2 : s2.previous_message = s1.previous_message := by
        have h0 := ih s1
        rw [hr] at h0
        exact h0
      simp [runCycles, hm, hr, h2, h1]

theorem check_tokens_ok_iff (e : EnvVars) :
    check_tokens e = .ok true
      ↔ (envFalsy e.practicum_token = false ∧ envFalsy e.telegram_token = false
          ∧ envFalsy e.telegram_chat_id = false) := by
  cases hp : envFalsy e.practicum_token <;> cases ht : envFalsy e.telegram_token
    <;> cases hc : envFalsy e.telegram_chat_id
    <;> simp [check_tokens, hp, ht, hc]

theorem check_tokens_error_shape (e : EnvVars) (err : PyError)
    (h : check_tokens e = .error err) : ∃ msg, err = .genericException msg := by
  cases hp : envFalsy e.practicum_token <;> cases ht : envFalsy e.telegram_token
    <;> cases hc : envFalsy e.telegram_chat_id
    <;> simp [check_tokens, hp, ht, hc] at h
    <;> exact ⟨_, h.symm⟩

theorem check_tokens_error_iff (e : EnvVars) :
    (∃ err, check_tokens e = .error err)
      ↔ (envFalsy e.practicum_token = true ∨ envFalsy e.telegram_token = true
          ∨ envFalsy e.telegram_chat_id = true) := by
  cases hp : envFalsy e.practicum_token <;> cases ht : envFalsy e.telegram_token
    <;> cases hc : envFalsy e.telegram_chat_id
    <;> simp [check_tokens, hp, ht, hc]

theorem main_ok (e : EnvVars) (t0 : Int) (envs : List CycleEnv)
    (h : check_tokens e = .ok true) :
    main e t0 envs = .ok (runCycles envs ⟨.num t0, ""⟩) := by
  simp [main, h]

theorem main_error (e : EnvVars) (t0 : Int) (envs : List CycleEnv) (err : PyError)
    (h : main e t0 envs = .error err) :
    ∃ msg, err = .genericException msg ∧ check_tokens e = .error err := by
  unfold main at h
  cases hc : check_tokens e with
  | error err2 =>
      rw [hc] at h
      dsimp only at h
      injection h with h2
      subst h2
      obtain ⟨msg, hmsg⟩ := check_tokens_error_shape e err2 hc
      exact ⟨msg, hmsg, rfl⟩
  | ok b =>
      rw [hc] at h
      exact absurd h (by simp)

theorem mainStep_state_of_error (env : CycleEnv) (s : MainState) (e : PyError)
    (hp : (process_homeworks env.fetch1 env.transport s.current_timestamp
            s.previous_message).1 = .error e) :
    (mainStep env s).1 = s := by
  rcases hpp : process_homeworks env.fetch1 env.transport s.current_timestamp s.previous_message
    with ⟨r1, ev1⟩
  rw [hpp] at hp
  dsimp only at hp
  subst hp
  simp [mainStep, hpp]

theorem mainStep_cursor (env : CycleEnv) (s : MainState) (p : String) (v : JsonValue)
    (hp : (process_homeworks env.fetch1 env.transport s.current_timestamp
            s.previous_message).1 = .ok p)
    (hu : (update_timestamp env.fetch2 s.current_timestamp).1 = .ok v) :
    (mainStep env s).1.current_timestamp = v := by
  rcases hpp : process_homeworks env.fetch1 env.transport s.current_timestamp s.previous_message
    with ⟨r1, ev1⟩
  rw [hpp] at hp
  dsimp only at hp
  subst hp
  rcases huu : update_timestamp env.fetch2 s.current_timestamp with ⟨r2, ev2⟩
  rw [huu] at hu
  dsimp only at hu
  subst hu
  simp [mainStep, hpp, huu]

theorem invalid_code_result (r : HttpResponse) (h : r.status_code ≠ 200) :
    get_api_answer_result (.resp r)
      = .error (.invalidResponseCode r.status_code r.reason r.text) := by
  unfold get_api_answer_result
  have hb : (r.status_code != 200) = true := by simp [bne_iff_ne, h]
  simp [hb]

theorem filter_api_process (h : HttpResult) (tr : String → TransportResult)
    (ts : JsonValue) (prev : String) :
    (process_homeworks h tr ts prev).2.filter isApiRequest = [Event.apiRequest ts] := by
  rcases process_homeworks_trace h tr ts prev with hh | ⟨m, hh⟩ <;> rw [hh] <;> rfl

theorem filter_api_handle (tr : String → TransportResult) (m prev : String) :
    (handle_error tr m prev).2.filter isApiRequest = [] := by
  rcases handle_error_trace tr m prev with hh | hh <;> rw [hh] <;> rfl

theorem logError_mem_handle (tr : String → TransportResult) (m prev : String) :
    Event.logError m ∈ (handle_error tr m prev).2 := by
  rcases handle_error_trace tr m prev with hh | hh <;> rw [hh] <;> simp

/-- C1: evaluation of the code at the failing input of the dedup law.  In an
environment where two consecutive cycles fetch, validate and format
successfully and produce the identical text `scenarioMsg`, the second cycle
still invokes `send_message` with that text: `main` discards the
`previous_message` value returned by `process_homeworks`, so the comparison
is made against the empty string in both cycles and the claimed
deduplication does not happen. -/
theorem dedup_failure_second_cycle_sends :
    ((process_homeworks scenarioEnv.fetch1 scenarioEnv.transport
        scenarioS0.current_timestamp scenarioS0.previous_message).1 = .ok scenarioMsg)
  ∧ ((mainStep scenarioEnv scenarioS0).2.filter isSendCall
        = [Event.sendCall scenarioMsg])
  ∧ ((process_homeworks scenarioEnv.fetch1 scenarioEnv.transport
        (mainStep scenarioEnv scenarioS0).1.current_timestamp
        (mainStep scenarioEnv scenarioS0).1.previous_message).1 = .ok scenarioMsg)
  ∧ ((mainStep scenarioEnv (mainStep scenarioEnv scenarioS0).1).2.filter isSendCall
        = [Event.sendCall scenarioMsg]) :=
  ⟨rfl, rfl, rfl, rfl⟩

/-- C2: every cycle of the loop ends in the sleep regardless of which phase
raised (each `except` clause absorbs the error and the `finally` clause
always runs); a finite run performs exactly one sleep per cycle; when the
startup credential check passes, `main` enters the loop and never returns an
error; `main` can only fail with the plain `Exception` raised by
`check_tokens`, which fails exactly when one of the three environment
variables is missing or empty. -/
theorem error_containment :
    (∀ env s, ((mainStep env s).2).getLast? = some (Event.sleep RETRY_PERIOD))
  ∧ (∀ envs s, ((runCycles envs s).2.countP isSleep) = envs.length)
  ∧ (∀ e t0 envs, check_tokens e = .ok true →
        main e t0 envs = .ok (runCycles envs ⟨.num t0, ""⟩))
  ∧ (∀ e t0 envs err, main e t0 envs = .error err →
        ∃ msg, err = .genericException msg ∧ check_tokens e = .error err)
  ∧ (∀ e, (∃ err, check_tokens e = .error err) ↔
        (envFalsy e.practicum_token = true ∨ envFalsy e.telegram_token = true
          ∨ envFalsy e.telegram_chat_id = true)) :=
  ⟨mainStep_trace_getLast, runCycles_countP_sleep, main_ok, main_error,
   check_tokens_error_iff⟩

/-- C2 witness: with all three credentials present `main` runs the loop;
with `PRACTICUM_TOKEN` unset it fails with the startup `Exception`. -/
theorem error_containment_witness :
    main ⟨some "a", some "b", some "c"⟩ 0 [] = .ok (runCycles [] ⟨.num 0, ""⟩)
  ∧ (∃ msg,
      PyError.genericException
          "Отсутствуют обязательные переменные окружения: PRACTICUM_TOKEN"
        = .genericException msg
      ∧ check_tokens ⟨none, some "b", some "c"⟩
          = .error (.genericException
              "Отсутствуют обязательные переменные окружения: PRACTICUM_TOKEN")) :=
  ⟨error_containment.2.2.1 ⟨some "a", some "b", some "c"⟩ 0 [] rfl,
   error_containment.2.2.2.1 ⟨none, some "b", some "c"⟩ 0 [] _ rfl⟩

/-- C3: when the fetch performed by `update_timestamp` succeeds and the
decoded response is a dict containing `current_date`, the new
`current_timestamp` is that value; when the key is absent the old value is
returned; and in a cycle whose `try` block completes, `main` assigns
exactly the value returned by `update_timestamp` to the cursor. -/
theorem cursor_update_rule :
    (∀ (h : HttpResult) (ts : JsonValue) (kvs : List (String × JsonValue)) (v : JsonValue),
        get_api_answer_result h = .ok (.obj kvs) →
        kvs.lookup "current_date" = some v →
        (update_timestamp h ts).1 = .ok v)
  ∧ (∀ (h : HttpResult) (ts : JsonValue) (kvs : List (String × JsonValue)),
        get_api_answer_result h = .ok (.obj kvs) →
        kvs.lookup "current_date" = none →
        (update_timestamp h ts).1 = .ok ts)
  ∧ (∀ (env : CycleEnv) (s : MainState) (p : String) (v : JsonValue),
        (process_homeworks env.fetch1 env.transport s.current_timestamp
            s.previous_message).1 = .ok p →
        (update_timestamp env.fetch2 s.current_timestamp).1 = .ok v →
        (mainStep env s).1.current_timestamp = v) := by
  refine ⟨?_, ?_, mainStep_cursor⟩
  · intro h ts kvs v hok hlk
    simp [update_timestamp, hok, pyDictGet, hlk]
  · intro h ts kvs hok hlk
    simp [update_timestamp, hok, pyDictGet, hlk]

/-- C3 witness: the cursor rule evaluated on concrete responses. -/
theorem cursor_update_rule_witness :
    (update_timestamp (.resp ⟨200, "OK", "", .ok (.obj [("current_date", .num 42)])⟩)
        (.num 7)).1 = .ok (.num 42)
  ∧ (update_timestamp (.resp ⟨200, "OK", "", .ok (.obj [("homeworks", .arr [])])⟩)
        (.num 7)).1 = .ok (.num 7)
  ∧ (mainStep scenarioEnv scenarioS0).1.current_timestamp = .num 2000 :=
  ⟨cursor_update_rule.1 _ (.num 7) [("current_date", .num 42)] (.num 42) rfl rfl,
   cursor_update_rule.2.1 _ (.num 7) [("homeworks", .arr [])] rfl rfl,
   cursor_update_rule.2.2 scenarioEnv scenarioS0 scenarioMsg (.num 2000) rfl rfl⟩

/-- C8: when the HTTP fetch of a cycle returns a status other than 200, the
fetch fails with `InvalidResponseCode`, the cycle leaves the whole state
(cursor and previous message) unchanged, logs the classified error and
proceeds to the sleep. -/
theorem fetch_failure_frame :
    ∀ (r : HttpResponse) (f2 : HttpResult) (tr : String → TransportResult) (s : MainState),
      r.status_code ≠ 200 →
      (process_homeworks (.resp r) tr s.current_timestamp s.previous_message).1
          = .error (.invalidResponseCode r.status_code r.reason r.text)
      ∧ (mainStep ⟨.resp r, f2, tr⟩ s).1 = s
      ∧ ((mainStep ⟨.resp r, f2, tr⟩ s).2).getLast? = some (Event.sleep RETRY_PERIOD)
      ∧ Event.logError (classifyError (.invalidResponseCode r.status_code r.reason r.text))
          ∈ (mainStep ⟨.resp r, f2, tr⟩ s).2 := by
  intro r f2 tr s h
  have hres := invalid_code_result r h
  have hp : process_homeworks (.resp r) tr s.current_timestamp s.previous_message
      = (.error (.invalidResponseCode r.status_code r.reason r.text),
         [Event.apiRequest s.current_timestamp]) := by
    simp [process_homeworks, hres]
  refine ⟨by rw [hp], ?_, mainStep_trace_getLast _ _, ?_⟩
  · exact mainStep_state_of_error ⟨.resp r, f2, tr⟩ s _ (by rw [hp])
  · simp only [mainStep, hp]
    rcases handle_error_trace tr
        (classifyError (.invalidResponseCode r.status_code r.reason r.text))
        s.previous_message with hh | hh <;> rw [hh] <;> simp

/-- C8 witness: the frame condition at a concrete 503 response. -/
theorem fetch_failure_frame_witness :
    (503 : Int) ≠ 200
  ∧ ((process_homeworks (.resp resp503) (fun _ => .accepted)
        (MainState.mk (.num 0) "").current_timestamp
        (MainState.mk (.num 0) "").previous_message).1
          = .error (.invalidResponseCode resp503.status_code resp503.reason resp503.text)
      ∧ (mainStep ⟨.resp resp503, .resp resp503, fun _ => .accepted⟩
            (MainState.mk (.num 0) "")).1 = MainState.mk (.num 0) ""
      ∧ ((mainStep ⟨.resp resp503, .resp resp503, fun _ => .accepted⟩
            (MainState.mk (.num 0) "")).2).getLast? = some (Event.sleep RETRY_PERIOD)
      ∧ Event.logError (classifyError
            (.invalidResponseCode resp503.status_code resp503.reason resp503.text))
          ∈ (mainStep ⟨.resp resp503, .resp resp503, fun _ => .accepted⟩
              (MainState.mk (.num 0) "")).2) :=
  ⟨by decide,
   fetch_failure_frame resp503 (.resp resp503) (fun _ => .accepted)
     (MainState.mk (.num 0) "") (by decide)⟩

/-- C9: `previous_message` is never reassigned by the loop: one cycle
preserves it, any finite run preserves it, and a run started with the empty
string compares every cycle's formatted text against the empty string. -/
theorem previous_message_never_updated :
    (∀ env s, (mainStep env s).1.previous_message = s.previous_message)
  ∧ (∀ envs s, (runCycles envs s).1.previous_message = s.previous_message)
  ∧ (∀ envs t0, (runCycles envs ⟨.num t0, ""⟩).1.previous_message = "") :=
  ⟨mainStep_prev, runCycles_prev, fun envs t0 => runCycles_prev envs ⟨.num t0, ""⟩⟩

/-- C10: every cycle whose `process_homeworks` completes without raising
performs exactly two API requests, both with the cycle's starting cursor
value, and the cursor is reassigned from the second request's response. -/
theorem double_fetch_per_success :
    ∀ (env : CycleEnv) (s : MainState) (p : String),
      (process_homeworks env.fetch1 env.transport s.current_timestamp
          s.previous_message).1 = .ok p →
      ((mainStep env s).2.filter isApiRequest
          = [Event.apiRequest s.current_timestamp, Event.apiRequest s.current_timestamp])
      ∧ (∀ v, (update_timestamp env.fetch2 s.current_timestamp).1 = .ok v →
            (mainStep env s).1.current_timestamp = v) := by
  intro env s p hok
  constructor
  · rcases hpp : process_homeworks env.fetch1 env.transport s.current_timestamp s.previous_message
      with ⟨r1, ev1⟩
    rw [hpp] at hok
    dsimp only at hok
    subst hok
    have hev1 : ev1.filter isApiRequest = [Event.apiRequest s.current_timestamp] := by
      have h0 := filter_api_process env.fetch1 env.transport s.current_timestamp s.previous_message
      rw [hpp] at h0
      exact h0
    rcases huu : update_timestamp env.fetch2 s.current_timestamp with ⟨r2, ev2⟩
    have hev2 : ev2 = [Event.apiRequest s.current_timestamp] := by
      have h0 := update_timestamp_trace env.fetch2 s.current_timestamp
      rw [huu] at h0
      exact h0
    subst hev2
    cases r2 with
    | error e =>
        simp [mainStep, hpp, huu, List.filter_append, hev1, filter_api_handle, isApiRequest]
    | ok v =>
        simp [mainStep, hpp, huu, List.filter_append, hev1, isApiRequest]
  · intro v hu
    exact mainStep_cursor env s p v hok hu

/-- C10 witness: in the scenario environment both requests use the starting
cursor 0; the first response reports `current_date = 1000` while the cursor
is set from the second response to 2000 — the two responses differ. -/
theorem double_fetch_per_success_witness :
    ((process_homeworks scenarioEnv.fetch1 scenarioEnv.transport
        scenarioS0.current_timestamp scenarioS0.previous_message).1 = .ok scenarioMsg)
  ∧ ((mainStep scenarioEnv scenarioS0).2.filter isApiRequest
        = [Event.apiRequest scenarioS0.current_timestamp,
           Event.apiRequest scenarioS0.current_timestamp])
  ∧ get_api_answer_result scenarioEnv.fetch1 = .ok (scenarioBody 1000)
  ∧ (update_timestamp scenarioEnv.fetch2 scenarioS0.current_timestamp).1 = .ok (.num 2000)
  ∧ (mainStep scenarioEnv scenarioS0).1.current_timestamp = .num 2000 :=
  ⟨rfl,
   (double_fetch_per_success scenarioEnv scenarioS0 scenarioMsg rfl).1,
   rfl, rfl,
   (double_fetch_per_success scenarioEnv scenarioS0 scenarioMsg rfl).2 (.num 2000) rfl⟩

end HomeworkBot
